import Mathlib

/-!
Verification of the photodna-rs safe boundary layer.

This file shallowly embeds the pure parts of the `photodna` crate
(`src/crates/photodna/src/{lib,hash,error}.rs`) and of the constants in
`photodna-sys` (`src/crates/photodna-sys/src/lib.rs`):

* the error taxonomy `PhotoDnaError` with `from_error_code` / `error_code`;
* `PixelFormat` with `bytes_per_pixel` and `to_options`;
* `HashOptions.to_sys_options`, the packed 32-bit option word encoder;
* the `Hash` value type with `from_slice`, `to_hex`, `from_hex`;
* the buffer / geometry validators of `compute_hash_with_stride`,
  `compute_hash_subregion` and `compute_hash_with_border_detection`,
  and the interpretation of the native border-detection return value.

Machine integers are modelled as `Nat` or `Int`; `u32` / `usize` overflow
is made explicit with `% 2 ^ 32` / `% 2 ^ 64` (release-profile wrapping
semantics) at the places where the Rust source can overflow.  The native
hashing module itself is an opaque oracle: its return code and output
buffers appear as explicit arguments of the embedded operations.
-/

set_option maxRecDepth 10000

namespace PhotoDna

/-- Size of a PhotoDNA Edge V2 hash in bytes (binary format); `PHOTODNA_HASH_SIZE_EDGE_V2 = 0x39c`. -/
def HASH_SIZE : Nat := 924

/-- Maximum hash buffer size (Base64 format); `PHOTODNA_HASH_SIZE_MAX = 0x4d0`. -/
def HASH_SIZE_MAX : Nat := 1232

/-- Modulus of the `u32` type. -/
def U32 : Nat := 2 ^ 32

/-- Modulus of the `usize` type on the 64-bit targets the crate supports. -/
def U64 : Nat := 2 ^ 64

/-- Value of `n as i32` for a `u32` value `n < 2^32`. -/
def toI32 (n : Nat) : Int := if n < 2 ^ 31 then (n : Int) else (n : Int) - 2 ^ 32

/-- Wrapping `u32` addition (Rust release-profile overflow semantics). -/
def wadd32 (a b : Nat) : Nat := (a + b) % U32

/-- Error code constant `PhotoDna_ErrorUnknown`. -/
def PhotoDna_ErrorUnknown : Int := -7000

/-- Error code constant `PhotoDna_ErrorMemoryAllocationFailed`. -/
def PhotoDna_ErrorMemoryAllocationFailed : Int := -7001

/-- Error code constant `PhotoDna_ErrorLibraryFailure`. -/
def PhotoDna_ErrorLibraryFailure : Int := -7002

/-- Error code constant `PhotoDna_ErrorMemoryAccess`. -/
def PhotoDna_ErrorMemoryAccess : Int := -7003

/-- Error code constant `PhotoDna_ErrorInvalidHash`. -/
def PhotoDna_ErrorInvalidHash : Int := -7004

/-- Error code constant `PhotoDna_ErrorHashFormatInvalidCharacters`. -/
def PhotoDna_ErrorHashFormatInvalidCharacters : Int := -7005

/-- Error code constant `PhotoDna_ErrorImageTooSmall`. -/
def PhotoDna_ErrorImageTooSmall : Int := -7006

/-- Error code constant `PhotoDna_ErrorNoBorder`. -/
def PhotoDna_ErrorNoBorder : Int := -7007

/-- Error code constant `PhotoDna_ErrorBadArgument`. -/
def PhotoDna_ErrorBadArgument : Int := -7008

/-- Error code constant `PhotoDna_ErrorImageIsFlat`. -/
def PhotoDna_ErrorImageIsFlat : Int := -7009

/-- Error code constant `PhotoDna_ErrorNoBorderImageTooSmall`. -/
def PhotoDna_ErrorNoBorderImageTooSmall : Int := -7010

/-- Error code constant `PhotoDna_ErrorSourceFormatUnknown`. -/
def PhotoDna_ErrorSourceFormatUnknown : Int := -7011

/-- Error code constant `PhotoDna_ErrorInvalidStride`. -/
def PhotoDna_ErrorInvalidStride : Int := -7012

/-- Error code constant `PhotoDna_ErrorInvalidSubImage`. -/
def PhotoDna_ErrorInvalidSubImage : Int := -7013

/-- The `PhotoDnaError` enum from `error.rs`. -/
inductive PhotoDnaError where
  | InitializationFailed (msg : String)
  | Unknown
  | MemoryAllocationFailed
  | LibraryFailure
  | MemoryAccess
  | InvalidHash
  | HashFormatInvalidCharacters
  | ImageTooSmall
  | NoBorder
  | BadArgument
  | ImageIsFlat
  | NoBorderImageTooSmall
  | SourceFormatUnknown
  | InvalidStride
  | InvalidSubImage
  | BufferTooSmall (expected actual : Nat)
  | InvalidDimensions (width height : Int)
  | UnknownErrorCode (code : Int)
deriving DecidableEq

/-- Embedding of `PhotoDnaError::from_error_code` (the `match code` arms, in source order). -/
def PhotoDnaError.from_error_code (code : Int) : PhotoDnaError :=
  if code = PhotoDna_ErrorUnknown then .Unknown
  else if code = PhotoDna_ErrorMemoryAllocationFailed then .MemoryAllocationFailed
  else if code = PhotoDna_ErrorLibraryFailure then .LibraryFailure
  else if code = PhotoDna_ErrorMemoryAccess then .MemoryAccess
  else if code = PhotoDna_ErrorInvalidHash then .InvalidHash
  else if code = PhotoDna_ErrorHashFormatInvalidCharacters then .HashFormatInvalidCharacters
  else if code = PhotoDna_ErrorImageTooSmall then .ImageTooSmall
  else if code = PhotoDna_ErrorNoBorder then .NoBorder
  else if code = PhotoDna_ErrorBadArgument then .BadArgument
  else if code = PhotoDna_ErrorImageIsFlat then .ImageIsFlat
  else if code = PhotoDna_ErrorNoBorderImageTooSmall then .NoBorderImageTooSmall
  else if code = PhotoDna_ErrorSourceFormatUnknown then .SourceFormatUnknown
  else if code = PhotoDna_ErrorInvalidStride then .InvalidStride
  else if code = PhotoDna_ErrorInvalidSubImage then .InvalidSubImage
  else .UnknownErrorCode code

/-- Embedding of `PhotoDnaError::error_code`. -/
def PhotoDnaError.error_code : PhotoDnaError → Option Int
  | .Unknown => some PhotoDna_ErrorUnknown
  | .MemoryAllocationFailed => some PhotoDna_ErrorMemoryAllocationFailed
  | .LibraryFailure => some PhotoDna_ErrorLibraryFailure
  | .MemoryAccess => some PhotoDna_ErrorMemoryAccess
  | .InvalidHash => some PhotoDna_ErrorInvalidHash
  | .HashFormatInvalidCharacters => some PhotoDna_ErrorHashFormatInvalidCharacters
  | .ImageTooSmall => some PhotoDna_ErrorImageTooSmall
  | .NoBorder => some PhotoDna_ErrorNoBorder
  | .BadArgument => some PhotoDna_ErrorBadArgument
  | .ImageIsFlat => some PhotoDna_ErrorImageIsFlat
  | .NoBorderImageTooSmall => some PhotoDna_ErrorNoBorderImageTooSmall
  | .SourceFormatUnknown => some PhotoDna_ErrorSourceFormatUnknown
  | .InvalidStride => some PhotoDna_ErrorInvalidStride
  | .InvalidSubImage => some PhotoDna_ErrorInvalidSubImage
  | .UnknownErrorCode code => some code
  | .InitializationFailed _ => none
  | .BufferTooSmall _ _ => none
  | .InvalidDimensions _ _ => none

/-- Option-word constant `PhotoDna_HashFormatMask = 0x000000f0`. -/
def PhotoDna_HashFormatMask : Nat := 0xf0

/-- Option-word constant `PhotoDna_HashFormatEdgeV2 = 0x00000080`. -/
def PhotoDna_HashFormatEdgeV2 : Nat := 0x80

/-- Option-word constant `PhotoDna_HashFormatEdgeV2Base64 = 0x00000090`. -/
def PhotoDna_HashFormatEdgeV2Base64 : Nat := 0x90

/-- Option-word constant `PhotoDna_PixelLayoutMask = 0x00001f00`. -/
def PhotoDna_PixelLayoutMask : Nat := 0x1f00

/-- Option-word constant `PhotoDna_Rgb = 0x00000000`. -/
def PhotoDna_Rgb : Nat := 0x0

/-- Option-word constant `PhotoDna_Bgr = 0x00000000` (same bit pattern as RGB). -/
def PhotoDna_Bgr : Nat := 0x0

/-- Option-word constant `PhotoDna_Rgba = 0x00000100`. -/
def PhotoDna_Rgba : Nat := 0x100

/-- Option-word constant `PhotoDna_RgbaPm = 0x00000700`. -/
def PhotoDna_RgbaPm : Nat := 0x700

/-- Option-word constant `PhotoDna_Bgra = 0x00000100` (same bit pattern as RGBA). -/
def PhotoDna_Bgra : Nat := 0x100

/-- Option-word constant `PhotoDna_Argb = 0x00000200`. -/
def PhotoDna_Argb : Nat := 0x200

/-- Option-word constant `PhotoDna_Abgr = 0x00000200` (same bit pattern as ARGB). -/
def PhotoDna_Abgr : Nat := 0x200

/-- Option-word constant `PhotoDna_Cmyk = 0x00000300`. -/
def PhotoDna_Cmyk : Nat := 0x300

/-- Option-word constant `PhotoDna_Grey8 = 0x00000400`. -/
def PhotoDna_Grey8 : Nat := 0x400

/-- Option-word constant `PhotoDna_Grey32 = 0x00000500`. -/
def PhotoDna_Grey32 : Nat := 0x500

/-- Option-word constant `PhotoDna_YCbCr = 0x00000600`. -/
def PhotoDna_YCbCr : Nat := 0x600

/-- Option-word constant `PhotoDna_Yuv420p = 0x00000800`. -/
def PhotoDna_Yuv420p : Nat := 0x800

/-- Option-word constant `PhotoDna_RemoveBorder = 0x00200000`. -/
def PhotoDna_RemoveBorder : Nat := 0x200000

/-- Option-word constant `PhotoDna_NoRotateFlip = 0x01000000`. -/
def PhotoDna_NoRotateFlip : Nat := 0x1000000

/-- Option-word constant `PhotoDna_CheckMemory = 0x20000000`. -/
def PhotoDna_CheckMemory : Nat := 0x20000000

/-- Option-word constant `PhotoDna_Verbose = 0x40000000`. -/
def PhotoDna_Verbose : Nat := 0x40000000

/-- The `PixelFormat` enum from `lib.rs`. -/
inductive PixelFormat where
  | Rgb
  | Bgr
  | Rgba
  | RgbaPremultiplied
  | Bgra
  | Argb
  | Abgr
  | Cmyk
  | Gray8
  | Gray32
  | YCbCr
  | Yuv420p
deriving DecidableEq

/-- Embedding of `PixelFormat::bytes_per_pixel`. -/
def PixelFormat.bytes_per_pixel : PixelFormat → Nat
  | .Rgb | .Bgr | .YCbCr => 3
  | .Rgba | .RgbaPremultiplied | .Bgra | .Argb | .Abgr | .Cmyk | .Gray32 => 4
  | .Gray8 => 1
  | .Yuv420p => 2

/-- Embedding of `PixelFormat::to_options`. -/
def PixelFormat.to_options : PixelFormat → Nat
  | .Rgb | .Bgr => PhotoDna_Rgb
  | .Rgba | .Bgra => PhotoDna_Rgba
  | .RgbaPremultiplied => PhotoDna_RgbaPm
  | .Argb | .Abgr => PhotoDna_Argb
  | .Cmyk => PhotoDna_Cmyk
  | .Gray8 => PhotoDna_Grey8
  | .Gray32 => PhotoDna_Grey32
  | .YCbCr => PhotoDna_YCbCr
  | .Yuv420p => PhotoDna_Yuv420p

/-- The `HashOptions` struct from `lib.rs`. -/
structure HashOptions where
  pixel_format : PixelFormat
  remove_border : Bool
  no_rotate_flip : Bool
  verbose : Bool
  check_memory : Bool
deriving DecidableEq

/-- The `Default` instance of `HashOptions`: RGB pixel format, all flags off. -/
def HashOptions.default : HashOptions := ⟨.Rgb, false, false, false, false⟩

/-- Embedding of `HashOptions::to_sys_options`: starts from the Edge V2 hash-format
bits and ORs in the pixel-layout bits and the enabled behaviour bits. -/
def HashOptions.to_sys_options (o : HashOptions) : Nat :=
  let opts := PhotoDna_HashFormatEdgeV2
  let opts := opts ||| o.pixel_format.to_options
  let opts := if o.remove_border then opts ||| PhotoDna_RemoveBorder else opts
  let opts := if o.no_rotate_flip then opts ||| PhotoDna_NoRotateFlip else opts
  let opts := if o.verbose then opts ||| PhotoDna_Verbose else opts
  let opts := if o.check_memory then opts ||| PhotoDna_CheckMemory else opts
  opts

/-- The `Hash` struct from `hash.rs`: a 924-byte buffer plus a logical length.
Bytes are modelled as `Nat` values; well-formed values have `bytes.length = HASH_SIZE`,
`len ≤ HASH_SIZE` and all bytes below 256 (`u8`). -/
structure Hash where
  bytes : List Nat
  len : Nat
deriving DecidableEq

/-- The derived `PartialEq` of `Hash`: field-wise comparison of the full
924-byte buffer and of the logical length. -/
def hashEq (a b : Hash) : Bool := a.bytes == b.bytes && a.len == b.len

/-- Embedding of `Hash::new`: takes a full-capacity buffer, sets `len = HASH_SIZE`. -/
def Hash.new (bytes : List Nat) : Hash := ⟨bytes, HASH_SIZE⟩

/-- Embedding of `Hash::from_slice`: rejects slices longer than `HASH_SIZE`,
otherwise copies into a zeroed buffer and records the slice length. -/
def Hash.from_slice (slice : List Nat) : Option Hash :=
  if slice.length > HASH_SIZE then none
  else some ⟨slice ++ List.replicate (HASH_SIZE - slice.length) 0, slice.length⟩

/-- Embedding of `Hash::as_bytes`: the valid bytes `[0, len)`. -/
def Hash.as_bytes (h : Hash) : List Nat := h.bytes.take h.len

/-- Embedding of `Hash::set_len` (the source asserts `len ≤ HASH_SIZE`,
which is the well-formedness side condition here). -/
def Hash.set_len (h : Hash) (len : Nat) : Hash := ⟨h.bytes, len⟩

/-- The lowercase hex digit (as an ASCII byte) of a value below 16,
as produced by the `write!("\x7b:02x\x7d", byte)` in `Hash::to_hex`. -/
def hexCharLower (d : Nat) : Nat := if d < 10 then 48 + d else 87 + d

/-- Hex encoding of a byte list, two lowercase digits per byte, high nibble first. -/
def bytesToHexLower (bs : List Nat) : List Nat :=
  bs.flatMap fun b => [hexCharLower (b / 16), hexCharLower (b % 16)]

/-- Embedding of `Hash::to_hex`: lowercase hex of the valid bytes `[0, len)`.
The string is modelled as its list of ASCII bytes. -/
def Hash.to_hex (h : Hash) : List Nat := bytesToHexLower (h.bytes.take h.len)

/-- Embedding of `hex_digit_value`: 0-9, a-f, A-F (ASCII bytes). -/
def hex_digit_value (c : Nat) : Option Nat :=
  if 48 ≤ c ∧ c ≤ 57 then some (c - 48)
  else if 97 ≤ c ∧ c ≤ 102 then some (c - 97 + 10)
  else if 65 ≤ c ∧ c ≤ 70 then some (c - 65 + 10)
  else none

/-- The pair-parsing loop of `Hash::from_hex`: each two-byte chunk becomes
`(high <<< 4) ||| low`; any invalid digit fails the whole parse. -/
def parseHexPairs : List Nat → Option (List Nat)
  | [] => some []
  | [_] => none
  | c1 :: c2 :: rest =>
    match hex_digit_value c1, hex_digit_value c2, parseHexPairs rest with
    | some hi, some lo, some bs => some ((hi <<< 4 ||| lo) :: bs)
    | _, _, _ => none

/-- Embedding of `Hash::from_hex`: requires an even length, at most
`2 * HASH_SIZE` characters and only hex digits; the result is zero-padded
beyond `len = length / 2`.  The input string is modelled as its bytes. -/
def Hash.from_hex (hex : List Nat) : Option Hash :=
  if hex.length % 2 ≠ 0 then none
  else
    let byte_len := hex.length / 2
    if byte_len > HASH_SIZE then none
    else
      match parseHexPairs hex with
      | none => none
      | some bs => some ⟨bs ++ List.replicate (HASH_SIZE - byte_len) 0, byte_len⟩

/-- The validation prefix of `Generator::compute_hash_with_stride`: dimension
check, expected-size computation (`usize` arithmetic, wrapping at `2 ^ 64`)
and buffer-size check.  `none` means validation passed and the native entry
point is invoked. -/
def strideValidate (imageLen width height stride : Nat) (options : HashOptions) :
    Option PhotoDnaError :=
  if width = 0 ∨ height = 0 then
    some (.InvalidDimensions (toI32 width) (toI32 height))
  else
    let bytes_per_pixel := options.pixel_format.bytes_per_pixel
    let expected_stride := if stride = 0 then width * bytes_per_pixel else stride
    let expected_size := expected_stride * height % U64
    if imageLen < expected_size then
      some (.BufferTooSmall expected_size imageLen)
    else
      none

/-- Embedding of `Generator::compute_hash_with_stride`.  The native call is an
oracle: `nativeRet` is its `i32` return value and `nativeBuf` the 924-byte
output buffer it filled. -/
def compute_hash_with_stride (imageLen width height stride : Nat)
    (options : HashOptions) (nativeRet : Int) (nativeBuf : List Nat) :
    Except PhotoDnaError Hash :=
  match strideValidate imageLen width height stride options with
  | some e => .error e
  | none =>
    if nativeRet < 0 then .error (.from_error_code nativeRet)
    else .ok (Hash.new nativeBuf)

/-- Embedding of `Generator::compute_hash` (stride 0). -/
def compute_hash (imageLen width height : Nat) (options : HashOptions)
    (nativeRet : Int) (nativeBuf : List Nat) : Except PhotoDnaError Hash :=
  compute_hash_with_stride imageLen width height 0 options nativeRet nativeBuf

/-- The validation prefix of `Generator::compute_hash_subregion`, in source
order: region-bounds check with wrapping `u32` additions, dimension check
(rejecting zero region extents with `InvalidDimensions` over the region
extents cast to `i32`), then the buffer-size check for the full image.
`none` means validation passed and the native entry point is invoked. -/
def subregionValidate (imageLen width height stride rx ry rw rh : Nat)
    (options : HashOptions) : Option PhotoDnaError :=
  if wadd32 rx rw > width ∨ wadd32 ry rh > height then
    some .InvalidSubImage
  else if width = 0 ∨ height = 0 ∨ rw = 0 ∨ rh = 0 then
    some (.InvalidDimensions (toI32 rw) (toI32 rh))
  else
    let bytes_per_pixel := options.pixel_format.bytes_per_pixel
    let expected_stride := if stride = 0 then width * bytes_per_pixel else stride
    let expected_size := expected_stride * height % U64
    if imageLen < expected_size then
      some (.BufferTooSmall expected_size imageLen)
    else
      none

/-- Embedding of `Generator::compute_hash_subregion`, with the native call as
an oracle. -/
def compute_hash_subregion (imageLen width height stride rx ry rw rh : Nat)
    (options : HashOptions) (nativeRet : Int) (nativeBuf : List Nat) :
    Except PhotoDnaError Hash :=
  match subregionValidate imageLen width height stride rx ry rw rh options with
  | some e => .error e
  | none =>
    if nativeRet < 0 then .error (.from_error_code nativeRet)
    else .ok (Hash.new nativeBuf)

/-- The `sys::HashResult` record (reserved fields omitted: the wrapper never
reads them).  `hash` is the 1232-byte output buffer. -/
structure HashResult where
  result : Int
  hash_format : Int
  header_dimensions_image_x : Int
  header_dimensions_image_y : Int
  header_dimensions_image_w : Int
  header_dimensions_image_h : Int
  hash : List Nat
deriving DecidableEq

/-- The `Default` instance of `sys::HashResult`: all fields zero. -/
def HashResult.default : HashResult := ⟨0, 0, 0, 0, 0, 0, List.replicate HASH_SIZE_MAX 0⟩

/-- The `BorderHashResult` struct from `lib.rs`. -/
structure BorderHashResult where
  primary : Hash
  borderless : Option Hash
  content_region : Option (Int × Int × Int × Int)
deriving DecidableEq

/-- Embedding of `extract_hash_from_result`: a negative per-slot status maps to
an error, otherwise the first `HASH_SIZE` bytes of the slot become the hash. -/
def extract_hash_from_result (r : HashResult) : Except PhotoDnaError Hash :=
  if r.result < 0 then .error (.from_error_code r.result)
  else .ok (Hash.new (r.hash.take HASH_SIZE))

/-- The interpretation of the native border-detection return value in
`Generator::compute_hash_with_border_detection`: negative `count` maps to an
error; otherwise slot 0 yields the primary hash, and when `count >= 2` slot 1
yields the borderless hash and the content region. -/
def borderInterpret (count : Int) (slot0 slot1 : HashResult) :
    Except PhotoDnaError BorderHashResult :=
  if count < 0 then .error (.from_error_code count)
  else
    match extract_hash_from_result slot0 with
    | .error e => .error e
    | .ok primary =>
      if count ≥ 2 then
        match extract_hash_from_result slot1 with
        | .error e => .error e
        | .ok borderless =>
          .ok ⟨primary, some borderless,
            some (slot1.header_dimensions_image_x, slot1.header_dimensions_image_y,
              slot1.header_dimensions_image_w, slot1.header_dimensions_image_h)⟩
      else
        .ok ⟨primary, none, none⟩

/-- The validation prefix of `Generator::compute_hash_with_border_detection`:
dimension check and buffer-size check (`width * height * bytes_per_pixel`,
`usize` arithmetic). -/
def borderValidate (imageLen width height : Nat) (options : HashOptions) :
    Option PhotoDnaError :=
  if width = 0 ∨ height = 0 then
    some (.InvalidDimensions (toI32 width) (toI32 height))
  else
    let bytes_per_pixel := options.pixel_format.bytes_per_pixel
    let expected_size := width * height * bytes_per_pixel % U64
    if imageLen < expected_size then
      some (.BufferTooSmall expected_size imageLen)
    else
      none

/-- Embedding of `Generator::compute_hash_with_border_detection`, with the
native call as an oracle returning `count` and the two result slots. -/
def compute_hash_with_border_detection (imageLen width height : Nat)
    (options : HashOptions) (count : Int) (slot0 slot1 : HashResult) :
    Except PhotoDnaError BorderHashResult :=
  match borderValidate imageLen width height options with
  | some e => .error e
  | none => borderInterpret count slot0 slot1

/-- Claim C7: every named native error kind K with mapped code C satisfies
`from_error_code C = K` and `error_code K = some C`; any other negative code
maps to `UnknownErrorCode code`; and `error_code` returns `none` exactly for
the purely-local kinds `BufferTooSmall`, `InvalidDimensions` and
`InitializationFailed`. -/
theorem error_code_mapping_spec :
    (PhotoDnaError.from_error_code (-7000) = .Unknown ∧
        PhotoDnaError.error_code .Unknown = some (-7000) ∧
      PhotoDnaError.from_error_code (-7001) = .MemoryAllocationFailed ∧
        PhotoDnaError.error_code .MemoryAllocationFailed = some (-7001) ∧
      PhotoDnaError.from_error_code (-7002) = .LibraryFailure ∧
        PhotoDnaError.error_code .LibraryFailure = some (-7002) ∧
      PhotoDnaError.from_error_code (-7003) = .MemoryAccess ∧
        PhotoDnaError.error_code .MemoryAccess = some (-7003) ∧
      PhotoDnaError.from_error_code (-7004) = .InvalidHash ∧
        PhotoDnaError.error_code .InvalidHash = some (-7004) ∧
      PhotoDnaError.from_error_code (-7005) = .HashFormatInvalidCharacters ∧
        PhotoDnaError.error_code .HashFormatInvalidCharacters = some (-7005) ∧
      PhotoDnaError.from_error_code (-7006) = .ImageTooSmall ∧
        PhotoDnaError.error_code .ImageTooSmall = some (-7006) ∧
      PhotoDnaError.from_error_code (-7007) = .NoBorder ∧
        PhotoDnaError.error_code .NoBorder = some (-7007) ∧
      PhotoDnaError.from_error_code (-7008) = .BadArgument ∧
        PhotoDnaError.error_code .BadArgument = some (-7008) ∧
      PhotoDnaError.from_error_code (-7009) = .ImageIsFlat ∧
        PhotoDnaError.error_code .ImageIsFlat = some (-7009) ∧
      PhotoDnaError.from_error_code (-7010) = .NoBorderImageTooSmall ∧
        PhotoDnaError.error_code .NoBorderImageTooSmall = some (-7010) ∧
      PhotoDnaError.from_error_code (-7011) = .SourceFormatUnknown ∧
        PhotoDnaError.error_code .SourceFormatUnknown = some (-7011) ∧
      PhotoDnaError.from_error_code (-7012) = .InvalidStride ∧
        PhotoDnaError.error_code .InvalidStride = some (-7012) ∧
      PhotoDnaError.from_error_code (-7013) = .InvalidSubImage ∧
        PhotoDnaError.error_code .InvalidSubImage = some (-7013)) ∧
    (∀ c : Int, c < 0 →
      c ∉ ([-7000, -7001, -7002, -7003, -7004, -7005, -7006, -7007, -7008, -7009,
            -7010, -7011, -7012, -7013] : List Int) →
      PhotoDnaError.from_error_code c = .UnknownErrorCode c) ∧
    (∀ e : PhotoDnaError, e.error_code = none ↔
      ((∃ m, e = .InitializationFailed m) ∨ (∃ x y, e = .BufferTooSmall x y) ∨
        (∃ w h, e = .InvalidDimensions w h))) := by
  refine ⟨by decide, ?_, ?_⟩
  · intro c hneg hmem
    simp only [List.mem_cons, List.not_mem_nil, or_false, not_or] at hmem
    obtain ⟨n1, n2, n3, n4, n5, n6, n7, n8, n9, n10, n11, n12, n13, n14⟩ := hmem
    simp [PhotoDnaError.from_error_code, PhotoDna_ErrorUnknown,
      PhotoDna_ErrorMemoryAllocationFailed, PhotoDna_ErrorLibraryFailure,
      PhotoDna_ErrorMemoryAccess, PhotoDna_ErrorInvalidHash,
      PhotoDna_ErrorHashFormatInvalidCharacters, PhotoDna_ErrorImageTooSmall,
      PhotoDna_ErrorNoBorder, PhotoDna_ErrorBadArgument, PhotoDna_ErrorImageIsFlat,
      PhotoDna_ErrorNoBorderImageTooSmall, PhotoDna_ErrorSourceFormatUnknown,
      PhotoDna_ErrorInvalidStride, PhotoDna_ErrorInvalidSubImage,
      n1, n2, n3, n4, n5, n6, n7, n8, n9, n10, n11, n12, n13, n14]
  · intro e
    cases e <;> simp [PhotoDnaError.error_code]

/-- Witness for C7 at the concrete unmapped negative code `-7999`. -/
theorem error_code_mapping_witness :
    (-7999 : Int) < 0 ∧ PhotoDnaError.from_error_code (-7999) = .UnknownErrorCode (-7999) :=
  ⟨by decide, error_code_mapping_spec.2.1 (-7999) (by decide) (by decide)⟩

/-- Claim C8: the option word is the disjoint combination of the Edge V2
hash-format selector (within bits 4-7), the pixel-layout selector (within
bits 8-12) and the behaviour bits (21 remove-border, 24 disable-rotate/flip,
29 check-memory, 30 verbose); RGB with no flags encodes to exactly the
hash-format bits, enabling remove-border adds exactly bit 21, and RGB and
BGR share the pixel-layout bit pattern. -/
theorem to_sys_options_spec :
    (∀ o : HashOptions, o.to_sys_options =
      PhotoDna_HashFormatEdgeV2 + o.pixel_format.to_options
        + (if o.remove_border then PhotoDna_RemoveBorder else 0)
        + (if o.no_rotate_flip then PhotoDna_NoRotateFlip else 0)
        + (if o.check_memory then PhotoDna_CheckMemory else 0)
        + (if o.verbose then PhotoDna_Verbose else 0)) ∧
    (PhotoDna_HashFormatEdgeV2 &&& PhotoDna_HashFormatMask = PhotoDna_HashFormatEdgeV2 ∧
      PhotoDna_HashFormatMask = 0xf0) ∧
    (∀ pf : PixelFormat, pf.to_options &&& PhotoDna_PixelLayoutMask = pf.to_options) ∧
    (PhotoDna_PixelLayoutMask = 0x1f00 ∧ PhotoDna_RemoveBorder = 2 ^ 21 ∧
      PhotoDna_NoRotateFlip = 2 ^ 24 ∧ PhotoDna_CheckMemory = 2 ^ 29 ∧
      PhotoDna_Verbose = 2 ^ 30) ∧
    HashOptions.default.to_sys_options = PhotoDna_HashFormatEdgeV2 ∧
    (∀ pf nrf vb cm, (HashOptions.mk pf true nrf vb cm).to_sys_options
      = (HashOptions.mk pf false nrf vb cm).to_sys_options + PhotoDna_RemoveBorder) ∧
    PixelFormat.Rgb.to_options = PixelFormat.Bgr.to_options := by
  refine ⟨?_, by decide, ?_, by decide, by decide, ?_, by decide⟩
  · intro o
    obtain ⟨pf, rb, nrf, vb, cm⟩ := o
    cases pf <;> cases rb <;> cases nrf <;> cases vb <;> cases cm <;> decide
  · intro pf
    cases pf <;> decide
  · intro pf nrf vb cm
    cases pf <;> cases nrf <;> cases vb <;> cases cm <;> decide

/-- Claim C3, counterexample: two `Hash` values reachable through
`Hash::new` followed by `set_len 0` that agree on the stored byte range
`[0, len)` and on `len` but differ in an unused capacity byte, and that the
derived equality distinguishes. -/
theorem hash_padding_breaks_equality :
    ((Hash.new (List.replicate HASH_SIZE 0)).set_len 0).as_bytes
        = ((Hash.new (1 :: List.replicate (HASH_SIZE - 1) 0)).set_len 0).as_bytes ∧
    ((Hash.new (List.replicate HASH_SIZE 0)).set_len 0).len
        = ((Hash.new (1 :: List.replicate (HASH_SIZE - 1) 0)).set_len 0).len ∧
    hashEq ((Hash.new (List.replicate HASH_SIZE 0)).set_len 0)
        ((Hash.new (1 :: List.replicate (HASH_SIZE - 1) 0)).set_len 0) = false :=
  ⟨rfl, rfl, by decide⟩

/-- Claim C3, amended: the derived equality of `Hash` compares the full
924-byte buffer together with the length field, so two hashes are equal (and
only then hash identically as map keys) iff both fields coincide — it is not
independent of the unused capacity bytes beyond `len`. -/
theorem hashEq_iff_struct_fields (a b : Hash) :
    hashEq a b = true ↔ a.bytes = b.bytes ∧ a.len = b.len := by
  simp [hashEq]

/-- Claim C2: the region-bounds check of `compute_hash_subregion` computes
`x + w` in wrapping `u32` arithmetic, so a region whose mathematical
`x + w` exceeds the `u32` range can wrap below `width` and pass the whole
validation (`none` = the native entry point is invoked), instead of being
rejected with `InvalidSubImage`. -/
theorem subregion_overflow_reaches_native :
    4294967295 + 2 > 100 ∧
    subregionValidate 30000 100 100 0 4294967295 0 2 50 HashOptions.default = none :=
  ⟨by decide, by decide⟩

/-- Claim C4, counterexample: a region inside the image bounds with zero
width is rejected with `InvalidDimensions` over the region extents, not with
`InvalidSubImage`. -/
theorem subregion_zero_width_error_kind :
    subregionValidate 30000 100 100 0 0 0 0 10 HashOptions.default
        = some (.InvalidDimensions 0 10) ∧
    some (PhotoDnaError.InvalidDimensions 0 10) ≠ some PhotoDnaError.InvalidSubImage :=
  ⟨by decide, by decide⟩

/-- Claim C4, amended: a sub-region call whose region lies within the image
bounds but has `w = 0` or `h = 0` fails before any native call, with
`InvalidDimensions` carrying the region extents cast to `i32` (not with
`InvalidSubImage`). -/
theorem subregion_zero_extent_spec (imageLen width height stride rx ry rw rh : Nat)
    (o : HashOptions) (hw : width < U32) (hh : height < U32)
    (hx : rx + rw ≤ width) (hy : ry + rh ≤ height) (hz : rw = 0 ∨ rh = 0) :
    subregionValidate imageLen width height stride rx ry rw rh o
      = some (.InvalidDimensions (toI32 rw) (toI32 rh)) := by
  have h1 : wadd32 rx rw = rx + rw := Nat.mod_eq_of_lt (lt_of_le_of_lt hx hw)
  have h2 : wadd32 ry rh = ry + rh := Nat.mod_eq_of_lt (lt_of_le_of_lt hy hh)
  unfold subregionValidate
  rw [h1, h2, if_neg (by omega), if_pos (by tauto)]

/-- Witness for C4's amended theorem at a concrete in-bounds zero-width region. -/
theorem subregion_zero_extent_witness :
    subregionValidate 30000 100 100 0 5 5 0 10 HashOptions.default
      = some (.InvalidDimensions (toI32 0) (toI32 10)) :=
  subregion_zero_extent_spec 30000 100 100 0 5 5 0 10 HashOptions.default (by decide)
    (by decide) (by decide) (by decide) (Or.inl rfl)

/-- Decidable equality for `Except`, used to evaluate the embedded
operations on concrete inputs. -/
instance {e a : Type} [DecidableEq e] [DecidableEq a] : DecidableEq (Except e a)
  | .ok x, .ok y => if h : x = y then isTrue (by rw [h]) else isFalse (by simp [h])
  | .error x, .error y => if h : x = y then isTrue (by rw [h]) else isFalse (by simp [h])
  | .ok _, .error _ => isFalse (by simp)
  | .error _, .ok _ => isFalse (by simp)

/-- Claim C9: the validator of `compute_hash_with_stride` rejects zero
dimensions with `InvalidDimensions`, otherwise compares the buffer length
against `expectedStride * height` where `expectedStride` is `stride` when
nonzero and `width * bytesPerPixel` otherwise, rejecting short buffers with
`BufferTooSmall expected actual`; concretely for 50×50 RGB with stride 0 the
expected size is 7500, a 7499-byte buffer is rejected and a 7500-byte buffer
passes. -/
theorem stride_validator_spec :
    (∀ imageLen width height stride o, width = 0 ∨ height = 0 →
      strideValidate imageLen width height stride o
        = some (.InvalidDimensions (toI32 width) (toI32 height))) ∧
    (∀ imageLen width height stride (o : HashOptions), width ≠ 0 → height ≠ 0 →
      (if stride = 0 then width * o.pixel_format.bytes_per_pixel else stride) * height < U64 →
      ((imageLen < (if stride = 0 then width * o.pixel_format.bytes_per_pixel else stride) * height →
        strideValidate imageLen width height stride o
          = some (.BufferTooSmall
              ((if stride = 0 then width * o.pixel_format.bytes_per_pixel else stride) * height)
              imageLen)) ∧
        ((if stride = 0 then width * o.pixel_format.bytes_per_pixel else stride) * height ≤ imageLen →
        strideValidate imageLen width height stride o = none))) ∧
    (PixelFormat.Rgb.bytes_per_pixel = 3 ∧
      strideValidate 7499 50 50 0 HashOptions.default = some (.BufferTooSmall 7500 7499) ∧
      strideValidate 7500 50 50 0 HashOptions.default = none) := by
  refine ⟨?_, ?_, by decide, by decide, by decide⟩
  · intro imageLen width height stride o hwh
    unfold strideValidate
    rw [if_pos hwh]
  · intro imageLen width height stride o hw hh hlt
    constructor
    · intro hless
      unfold strideValidate
      rw [if_neg (by tauto)]
      simp only [Nat.mod_eq_of_lt hlt]
      rw [if_pos hless]
    · intro hge
      unfold strideValidate
      rw [if_neg (by tauto)]
      simp only [Nat.mod_eq_of_lt hlt]
      rw [if_neg (by omega)]

/-- Witness for C9 at a concrete zero-width call. -/
theorem stride_validator_witness :
    strideValidate 7499 0 50 3 HashOptions.default
      = some (.InvalidDimensions (toI32 0) (toI32 50)) :=
  stride_validator_spec.1 7499 0 50 3 HashOptions.default (Or.inl rfl)

/-- The hash-format field of every encoded option word is the Edge V2 selector. -/
lemma to_sys_options_format_field (o : HashOptions) :
    o.to_sys_options &&& PhotoDna_HashFormatMask = PhotoDna_HashFormatEdgeV2 := by
  obtain ⟨pf, rb, nrf, vb, cm⟩ := o
  cases pf <;> cases rb <;> cases nrf <;> cases vb <;> cases cm <;> decide

/-- A successful `compute_hash_with_stride` result is `Hash.new` of the
native buffer, whose length is `HASH_SIZE`. -/
lemma compute_stride_ok_len (imageLen width height stride : Nat) (o : HashOptions)
    (nativeRet : Int) (nativeBuf : List Nat) (h : Hash)
    (heq : compute_hash_with_stride imageLen width height stride o nativeRet nativeBuf = .ok h) :
    h.len = HASH_SIZE := by
  unfold compute_hash_with_stride at heq
  split at heq
  · exact absurd heq (by simp)
  · split at heq
    · exact absurd heq (by simp)
    · simp only [Except.ok.injEq] at heq
      subst heq
      rfl

/-- A successful `compute_hash_subregion` result is `Hash.new` of the native
buffer, whose length is `HASH_SIZE`. -/
lemma compute_subregion_ok_len (imageLen width height stride rx ry rw rh : Nat)
    (o : HashOptions) (nativeRet : Int) (nativeBuf : List Nat) (h : Hash)
    (heq : compute_hash_subregion imageLen width height stride rx ry rw rh o nativeRet nativeBuf
      = .ok h) : h.len = HASH_SIZE := by
  unfold compute_hash_subregion at heq
  split at heq
  · exact absurd heq (by simp)
  · split at heq
    · exact absurd heq (by simp)
    · simp only [Except.ok.injEq] at heq
      subst heq
      rfl

/-- Claim C10: the safe API always encodes the binary Edge V2 hash format
(the Base64 format selector is not reachable through `HashOptions`), and
every hash returned by a successful `compute_hash`,
`compute_hash_with_stride` or `compute_hash_subregion` call has
`len = HASH_SIZE = 924`. -/
theorem edgeV2_format_and_full_length :
    (∀ o : HashOptions,
      o.to_sys_options &&& PhotoDna_HashFormatMask = PhotoDna_HashFormatEdgeV2 ∧
      o.to_sys_options &&& PhotoDna_HashFormatMask ≠ PhotoDna_HashFormatEdgeV2Base64) ∧
    (∀ imageLen width height stride o nativeRet nativeBuf h,
      compute_hash_with_stride imageLen width height stride o nativeRet nativeBuf = .ok h →
      h.len = HASH_SIZE) ∧
    (∀ imageLen width height o nativeRet nativeBuf h,
      compute_hash imageLen width height o nativeRet nativeBuf = .ok h → h.len = HASH_SIZE) ∧
    (∀ imageLen width height stride rx ry rw rh o nativeRet nativeBuf h,
      compute_hash_subregion imageLen width height stride rx ry rw rh o nativeRet nativeBuf
        = .ok h → h.len = HASH_SIZE) ∧
    HASH_SIZE = 924 := by
  refine ⟨?_, compute_stride_ok_len, ?_, compute_subregion_ok_len, rfl⟩
  · intro o
    refine ⟨to_sys_options_format_field o, ?_⟩
    rw [to_sys_options_format_field o]
    decide
  · intro imageLen width height o nativeRet nativeBuf h heq
    exact compute_stride_ok_len imageLen width height 0 o nativeRet nativeBuf h heq

/-- Witness for C10 at a concrete successful 50×50 RGB call. -/
theorem edgeV2_format_and_full_length_witness :
    compute_hash_with_stride 7500 50 50 0 HashOptions.default 0 (List.replicate HASH_SIZE 0)
        = .ok (Hash.new (List.replicate HASH_SIZE 0)) ∧
    (Hash.new (List.replicate HASH_SIZE 0)).len = HASH_SIZE :=
  ⟨by decide, edgeV2_format_and_full_length.2.1 7500 50 50 0 HashOptions.default 0
    (List.replicate HASH_SIZE 0) (Hash.new (List.replicate HASH_SIZE 0)) (by decide)⟩

/-- Claim C1, counterexample: a native return value of `0` (outside the
documented {negative, 1, 2} contract) is not failed closed: the wrapper
interprets it like the no-border case and returns a success value whose
primary hash is read from the untouched zeroed slot 0. -/
theorem border_count_zero_ok :
    borderInterpret 0 HashResult.default HashResult.default
      = .ok ⟨Hash.new (List.replicate HASH_SIZE 0), none, none⟩ := by
  decide

/-- Claim C1, amended: a negative native return maps to the corresponding
error and no result; any non-negative return below 2 (including the
undocumented 0) yields a result with the primary hash from slot 0 and
`borderless` and `content_region` both `none`; any return of at least 2
(including undocumented values above 2) yields a result with `borderless`
and `content_region` populated from slot 1 — each success path subject to
the slots' own status fields being non-negative. -/
theorem borderInterpret_spec (count : Int) (slot0 slot1 : HashResult) :
    (count < 0 → borderInterpret count slot0 slot1 = .error (.from_error_code count)) ∧
    (0 ≤ count → count < 2 → 0 ≤ slot0.result →
      borderInterpret count slot0 slot1
        = .ok ⟨Hash.new (slot0.hash.take HASH_SIZE), none, none⟩) ∧
    (2 ≤ count → 0 ≤ slot0.result → 0 ≤ slot1.result →
      borderInterpret count slot0 slot1
        = .ok ⟨Hash.new (slot0.hash.take HASH_SIZE),
            some (Hash.new (slot1.hash.take HASH_SIZE)),
            some (slot1.header_dimensions_image_x, slot1.header_dimensions_image_y,
              slot1.header_dimensions_image_w, slot1.header_dimensions_image_h)⟩) := by
  refine ⟨?_, ?_, ?_⟩
  · intro hneg
    unfold borderInterpret
    rw [if_pos hneg]
  · intro h0 h2 hs0
    have hc : ¬ count < 0 := by omega
    have hc2 : ¬ count ≥ 2 := by omega
    have hs : ¬ slot0.result < 0 := by omega
    simp [borderInterpret, extract_hash_from_result, hc, hc2, hs]
  · intro h2 hs0 hs1
    have hc : ¬ count < 0 := by omega
    have hs : ¬ slot0.result < 0 := by omega
    have hs' : ¬ slot1.result < 0 := by omega
    simp [borderInterpret, extract_hash_from_result, hc, h2, hs, hs']

/-- Witness for C1's amended theorem at the documented no-border return `1`. -/
theorem borderInterpret_witness :
    borderInterpret 1 HashResult.default HashResult.default
      = .ok ⟨Hash.new (HashResult.default.hash.take HASH_SIZE), none, none⟩ :=
  (borderInterpret_spec 1 HashResult.default HashResult.default).2.1 (by decide) (by decide)
    (by decide)

/-- Decoding a lowercase hex digit produced by `hexCharLower` recovers the value. -/
lemma hex_digit_value_hexCharLower : ∀ d < 16, hex_digit_value (hexCharLower d) = some d := by
  decide

/-- For nibbles, `(hi <<< 4) ||| lo` is `16 * hi + lo`. -/
lemma hexCombine : ∀ hi < 16, ∀ lo < 16, hi <<< 4 ||| lo = 16 * hi + lo := by
  decide

/-- Hex encoding doubles the length. -/
lemma bytesToHexLower_length (bs : List Nat) :
    (bytesToHexLower bs).length = 2 * bs.length := by
  induction bs with
  | nil => rfl
  | cons b bs ih =>
    simp only [bytesToHexLower, List.flatMap_cons, List.length_append, List.length_cons,
      List.length_nil, List.length_cons] at ih ⊢
    omega

/-- Parsing the hex encoding of a byte list recovers the bytes. -/
lemma parseHexPairs_bytesToHex (bs : List Nat) (hb : ∀ b ∈ bs, b < 256) :
    parseHexPairs (bytesToHexLower bs) = some bs := by
  induction bs with
  | nil => rfl
  | cons b bs ih =>
    have hblt : b < 256 := hb b (List.mem_cons_self b bs)
    have hhi : b / 16 < 16 := by omega
    have hlo : b % 16 < 16 := by omega
    have hrest : parseHexPairs (bytesToHexLower bs) = some bs :=
      ih fun x hx => hb x (List.mem_cons_of_mem b hx)
    have hcons : bytesToHexLower (b :: bs)
        = hexCharLower (b / 16) :: hexCharLower (b % 16) :: bytesToHexLower bs := by
      simp [bytesToHexLower]
    rw [hcons]
    simp only [parseHexPairs, hex_digit_value_hexCharLower _ hhi,
      hex_digit_value_hexCharLower _ hlo, hrest]
    rw [hexCombine _ hhi _ hlo, Nat.div_add_mod]

/-- A hex string containing an invalid digit never parses. -/
lemma parseHexPairs_of_bad : ∀ (hex : List Nat) (c : Nat), c ∈ hex →
    hex_digit_value c = none → parseHexPairs hex = none
  | [], c, hc, _ => absurd hc (List.not_mem_nil c)
  | [_], _, _, _ => rfl
  | c1 :: c2 :: rest, c, hc, hbad => by
    rcases List.mem_cons.mp hc with rfl | hc'
    · cases h2 : hex_digit_value c2 <;> cases h3 : parseHexPairs rest <;>
        simp [parseHexPairs, hbad, h2, h3]
    rcases List.mem_cons.mp hc' with rfl | hc''
    · cases h1 : hex_digit_value c1 <;> cases h3 : parseHexPairs rest <;>
        simp [parseHexPairs, hbad, h1, h3]
    · have h3 : parseHexPairs rest = none := parseHexPairs_of_bad rest c hc'' hbad
      cases h1 : hex_digit_value c1 <;> cases h2 : hex_digit_value c2 <;>
        simp [parseHexPairs, h1, h2, h3]

/-- An even-length string of valid hex digits parses, to half as many bytes. -/
lemma parseHexPairs_of_digits : ∀ hex : List Nat, hex.length % 2 = 0 →
    (∀ c ∈ hex, (hex_digit_value c).isSome) →
    ∃ bs, parseHexPairs hex = some bs ∧ bs.length = hex.length / 2
  | [] => fun _ _ => ⟨[], rfl, rfl⟩
  | [_] => by
    intro h _
    simp at h
  | c1 :: c2 :: rest => by
    intro heven hdig
    have h1 := hdig c1 (by simp)
    have h2 := hdig c2 (by simp)
    rw [Option.isSome_iff_exists] at h1 h2
    obtain ⟨hi, hhi⟩ := h1
    obtain ⟨lo, hlo⟩ := h2
    have heven' : rest.length % 2 = 0 := by
      simp only [List.length_cons] at heven
      omega
    obtain ⟨bs, hbs, hlen⟩ :=
      parseHexPairs_of_digits rest heven' fun c hc => hdig c (by simp [hc])
    refine ⟨(hi <<< 4 ||| lo) :: bs, ?_, ?_⟩
    · simp [parseHexPairs, hhi, hlo, hbs]
    · simp only [List.length_cons, hlen]
      omega

/-- Claim C6: `from_hex` succeeds on every even-length string of at most
1848 hex digits, producing a hash of half the string length, and returns
`none` for odd lengths, for lengths above `2 * HASH_SIZE = 1848`, and for
strings containing a non-hex character. -/
theorem from_hex_spec (hex : List Nat) :
    2 * HASH_SIZE = 1848 ∧
    (hex.length % 2 = 0 → hex.length ≤ 2 * HASH_SIZE →
      (∀ c ∈ hex, (hex_digit_value c).isSome) →
      (Hash.from_hex hex).isSome = true ∧
      ∀ h, Hash.from_hex hex = some h → h.len = hex.length / 2) ∧
    (hex.length % 2 = 1 → Hash.from_hex hex = none) ∧
    (2 * HASH_SIZE < hex.length → Hash.from_hex hex = none) ∧
    (∀ c ∈ hex, hex_digit_value c = none → Hash.from_hex hex = none) := by
  refine ⟨rfl, ?_, ?_, ?_, ?_⟩
  · intro heven hle hdig
    obtain ⟨bs, hbs, hlen⟩ := parseHexPairs_of_digits hex heven hdig
    have hmod : ¬ hex.length % 2 ≠ 0 := by omega
    have hbl : ¬ hex.length / 2 > HASH_SIZE := by
      simp only [HASH_SIZE] at *
      omega
    constructor
    · unfold Hash.from_hex
      rw [if_neg hmod]
      simp only [if_neg hbl, hbs]
      rfl
    · intro h heq
      simp only [Hash.from_hex, if_neg hmod, if_neg hbl, hbs, Option.some.injEq] at heq
      subst heq
      rfl
  · intro hodd
    have hmod : hex.length % 2 ≠ 0 := by omega
    simp [Hash.from_hex, hmod]
  · intro hgt
    by_cases hmod : hex.length % 2 ≠ 0
    · simp [Hash.from_hex, hmod]
    · have hbl : hex.length / 2 > HASH_SIZE := by
        simp only [HASH_SIZE, not_not] at *
        omega
      simp [Hash.from_hex, hmod, hbl]
  · intro c hc hbad
    by_cases hmod : hex.length % 2 ≠ 0
    · simp [Hash.from_hex, hmod]
    · have hnone : parseHexPairs hex = none := parseHexPairs_of_bad hex c hc hbad
      by_cases hbl : hex.length / 2 > HASH_SIZE
      · simp [Hash.from_hex, hmod, hbl]
      · simp [Hash.from_hex, hmod, hbl, hnone]

/-- Witness for C6 at the concrete hex string "abcd" (ASCII bytes). -/
theorem from_hex_witness :
    (Hash.from_hex [97, 98, 99, 100]).isSome = true :=
  (((from_hex_spec [97, 98, 99, 100]).2.1) (by decide) (by decide) (by decide)).1

/-- Claim C5: every byte sequence of length at most 924 is accepted by
`from_slice`, and encoding with `to_hex` then decoding with `from_hex`
reproduces the hash exactly — same valid bytes and same length; sequences
longer than 924 bytes are rejected. -/
theorem hash_hex_roundtrip (s : List Nat) (hb : ∀ b ∈ s, b < 256) :
    (s.length ≤ HASH_SIZE →
      (Hash.from_slice s).isSome = true ∧
      ∀ h, Hash.from_slice s = some h →
        Hash.from_hex (Hash.to_hex h) = some h ∧ h.as_bytes = s ∧ h.len = s.length) ∧
    (HASH_SIZE < s.length → Hash.from_slice s = none) := by
  constructor
  · intro hle
    have hns : ¬ s.length > HASH_SIZE := by omega
    constructor
    · simp [Hash.from_slice, hns]
    · intro h heq
      simp only [Hash.from_slice, if_neg hns, Option.some.injEq] at heq
      subst heq
      have htake : (s ++ List.replicate (HASH_SIZE - s.length) 0).take s.length = s :=
        List.take_left s _
      refine ⟨?_, htake, rfl⟩
      have hparse := parseHexPairs_bytesToHex s hb
      have hlenhex : (bytesToHexLower s).length = 2 * s.length := bytesToHexLower_length s
      have hdiv : 2 * s.length / 2 = s.length := by omega
      have hmod : ¬ (2 * s.length) % 2 ≠ 0 := by omega
      have hbl : ¬ 2 * s.length / 2 > HASH_SIZE := by omega
      simp only [Hash.to_hex, htake, Hash.from_hex, hlenhex, if_neg hmod, hdiv, if_neg hbl,
        hparse]
      rw [if_neg hns]
  · intro hgt
    simp [Hash.from_slice, hgt]

/-- Witness for C5 at the concrete two-byte sequence `[0xAB, 0xCD]`. -/
theorem hash_hex_roundtrip_witness :
    (Hash.from_slice [171, 205]).isSome = true :=
  ((hash_hex_roundtrip [171, 205] (by decide)).1 (by decide)).1

end PhotoDna
